import Mathlib

/-!
Shallow embedding of the RiskTwin core: the scenario impact calculator
(server `applyScenarioImpact` plus the client-side `stateDeductibleHistory`
ledger logic), the external-factor risk adjuster (`MLRiskService.calculateRiskScore`),
the forecast models of `PredictiveRiskService`, and the scenario validation
middleware.  JavaScript numbers are modelled as rationals; `toFixed(k)` is
modelled as exact round-half-up at k decimals; object-field truthiness is
modelled explicitly on `Option` values.
-/

namespace RiskTwinCore

/-- JS `x.toFixed(1)` followed by `parseFloat`: round half up at one decimal. -/
def round1 (x : ℚ) : ℚ := (round (10 * x) : ℤ) / 10

/-- JS `x.toFixed(2)` followed by `parseFloat`: round half up at two decimals. -/
def round2 (x : ℚ) : ℚ := (round (100 * x) : ℤ) / 100

/-- JS truthiness of a possibly-missing numeric field: `undefined` and `0` are falsy. -/
def oqTruthy : Option ℚ → Bool
  | some q => q ≠ 0
  | none => false

/-- JS truthiness of a possibly-missing string field: `undefined` and `""` are falsy. -/
def osTruthy : Option String → Bool
  | some s => s ≠ ""
  | none => false

/-- The customer risk record held in `risk_twins` / `customers`. -/
structure RiskTwin where
  base_risk_score : ℚ
  next12m_claim_prob : ℚ
  next12m_expected_loss : ℚ
  state : String
  deriving DecidableEq, Repr

/-- The `change_json` object the client builds and the server consumes. -/
structure ChangeJson where
  no_change : Bool := false
  move_state : Option String := none
  increase_deductible : Option ℚ := none
  decrease_deductible : Option ℚ := none
  restore_deductible : Option ℚ := none
  before_deductible : Option ℚ := none
  final_deductible : Option ℚ := none
  deriving DecidableEq, Repr

/-- The `stateRiskFactors` table of `applyScenarioImpact` (part_001). -/
def stateRiskFactors : List (String × ℚ) :=
  [("FL", 1.15), ("CA", 1.12), ("TX", 1.08), ("NY", 1.10), ("IL", 1.05),
   ("PA", 1.02), ("OH", 0.98), ("GA", 1.06), ("NC", 1.04), ("MI", 1.01),
   ("NJ", 1.09), ("VA", 1.03), ("WA", 1.00), ("AZ", 1.07), ("MA", 1.11),
   ("TN", 0.99), ("IN", 0.97), ("MO", 0.96), ("MD", 1.08), ("WI", 0.95)]

/-- `stateRiskFactors[st] || 1.0`. -/
def stateFactor (st : String) : ℚ :=
  match stateRiskFactors.find? (fun p => p.1 = st) with
  | some p => p.2
  | none => 1.0

/-- The deductible change the server derives:
`changeJson.increase_deductible || -changeJson.decrease_deductible`. -/
def deductibleChange (c : ChangeJson) : ℚ :=
  if oqTruthy c.increase_deductible then c.increase_deductible.getD 0
  else -(c.decrease_deductible.getD 0)

/-- The unclamped value pipeline of `applyScenarioImpact`: the jurisdiction
ratio multiplication followed by the deductible impact multiplication,
with no clamping anywhere. -/
def rawScenarioImpact (t : RiskTwin) (c : ChangeJson) : RiskTwin :=
  let moveAdj : ℚ :=
    if osTruthy c.move_state then
      stateFactor (c.move_state.getD "") / stateFactor t.state
    else 1
  let dedFactor : ℚ :=
    if oqTruthy c.increase_deductible || oqTruthy c.decrease_deductible then
      1 - deductibleChange c * 0.0001
    else 1
  { base_risk_score := t.base_risk_score * moveAdj * dedFactor
    next12m_claim_prob := t.next12m_claim_prob * moveAdj * dedFactor
    next12m_expected_loss := t.next12m_expected_loss * moveAdj * dedFactor
    state := if osTruthy c.move_state then c.move_state.getD "" else t.state }

/-- Server `applyScenarioImpact` (part_001, lines 440-491): state-move
adjustment, then deductible adjustment, then one final clamp of each field. -/
def applyScenarioImpact (t : RiskTwin) (c : ChangeJson) : RiskTwin :=
  let s1 :=
    if osTruthy c.move_state then
      let target := c.move_state.getD ""
      let stateAdjustment := stateFactor target / stateFactor t.state
      { base_risk_score := t.base_risk_score * stateAdjustment
        next12m_claim_prob := t.next12m_claim_prob * stateAdjustment
        next12m_expected_loss := t.next12m_expected_loss * stateAdjustment
        state := target }
    else t
  let s2 :=
    if oqTruthy c.increase_deductible || oqTruthy c.decrease_deductible then
      let f := 1 - deductibleChange c * 0.0001
      { s1 with
        base_risk_score := s1.base_risk_score * f
        next12m_claim_prob := s1.next12m_claim_prob * f
        next12m_expected_loss := s1.next12m_expected_loss * f }
    else s1
  { s2 with
    base_risk_score := max 0 (min 100 s2.base_risk_score)
    next12m_claim_prob := max 0 (min 1 s2.next12m_claim_prob)
    next12m_expected_loss := max 0 s2.next12m_expected_loss }

/-- The per-customer `stateDeductibleHistory` object: an association list from
jurisdiction code to the last deductible stored there. -/
abbrev Ledger := List (String × ℚ)

/-- Read `stateDeductibleHistory[k]`: `none` models JS `undefined`. -/
def histLookup (h : Ledger) (k : String) : Option ℚ :=
  (h.find? (fun p => p.1 = k)).map (fun p => p.2)

/-- Write `stateDeductibleHistory[k] = v`, overwriting an existing key or
appending a new one. -/
def histSet (h : Ledger) (k : String) (v : ℚ) : Ledger :=
  if (h.find? (fun p => p.1 = k)).isSome then
    h.map (fun p => if p.1 = k then (k, v) else p)
  else h ++ [(k, v)]

/-- JS truthiness of `stateDeductibleHistory[k]`: missing entries and entries
holding `0` are both falsy. -/
def histTruthy (h : Ledger) (k : String) : Bool := oqTruthy (histLookup h k)

/-- The deductible action selector `#s_ded_action` of the dashboard form. -/
inductive DedAction | increase | decrease
  deriving DecidableEq, Repr

/-- The dashboard scenario form: trimmed target state (`""` when empty),
deductible amount `Number(... || 0)`, and the increase/decrease selector. -/
structure ScenarioInput where
  s : String
  d : ℚ
  action : DedAction
  deriving DecidableEq, Repr

/-- New deductible as the client computes it: `cur + d` on increase,
`max 0 (cur - d)` on decrease. -/
def newDeductible (act : DedAction) (cur d : ℚ) : ℚ :=
  match act with
  | .increase => cur + d
  | .decrease => max 0 (cur - d)

/-- The `change_json` fields the client attaches on an explicit deductible
adjustment. -/
def dedChangeFields (act : DedAction) (cur d : ℚ) (c : ChangeJson) : ChangeJson :=
  let nd := newDeductible act cur d
  match act with
  | .increase =>
      { c with
        increase_deductible := some d
        before_deductible := some cur
        final_deductible := some nd }
  | .decrease =>
      { c with
        decrease_deductible := some d
        before_deductible := some cur
        final_deductible := some nd }

/-- Client `applyScenario` core (dashboard script, quoted in
SOURCE_CODE_DOCUMENTATION.md): from the ledger, the customer's current state
and the form input, build the `change_json`, the updated ledger and the
`isNoChange` flag.  Branches follow the source exactly, including the JS
truthiness test `stateDeductibleHistory[s] && !d`. -/
def applyScenario (hist : Ledger) (currentState : String) (inp : ScenarioInput) :
    ChangeJson × Ledger × Bool :=
  if inp.s ≠ "" then
    if inp.s = currentState then
      if histTruthy hist inp.s ∧ inp.d = 0 then
        ({ no_change := true }, hist, true)
      else if inp.d > 0 then
        let cur := (histLookup hist inp.s).getD 0
        let nd := newDeductible inp.action cur inp.d
        (dedChangeFields inp.action cur inp.d {}, histSet hist inp.s nd, false)
      else
        ({}, hist, false)
    else
      if histTruthy hist inp.s ∧ inp.d = 0 then
        ({ move_state := some inp.s, restore_deductible := histLookup hist inp.s },
         hist, false)
      else if inp.d > 0 then
        let cur := (histLookup hist currentState).getD 0
        let nd := newDeductible inp.action cur inp.d
        (dedChangeFields inp.action cur inp.d { move_state := some inp.s },
         histSet hist inp.s nd, false)
      else
        let cur := (histLookup hist currentState).getD 0
        ({ move_state := some inp.s }, histSet hist inp.s cur, false)
  else if inp.d > 0 then
    let key := if currentState = "" then "unknown" else currentState
    let cur := (histLookup hist key).getD 0
    let nd := newDeductible inp.action cur inp.d
    (dedChangeFields inp.action cur inp.d {}, histSet hist key nd, false)
  else
    ({ no_change := true }, hist, true)

/-- One customer session: the server-side twin record plus the client-side
deductible ledger. -/
structure SessionState where
  twin : RiskTwin
  history : Ledger
  deriving DecidableEq, Repr

/-- One full scenario round trip: the client builds `change_json` and updates
its ledger, then the server (POST /api/scenario) applies the impact unless
`change_json.no_change` is set.  Returns the new session state and the
client's `isNoChange` flag. -/
def scenarioStep (st : SessionState) (inp : ScenarioInput) : SessionState × Bool :=
  let r := applyScenario st.history st.twin.state inp
  let change := r.1
  let hist := r.2.1
  let twin := if change.no_change then st.twin else applyScenarioImpact st.twin change
  (⟨twin, hist⟩, r.2.2)

/-! ### Forecast engine (`PredictiveRiskService`, part_007) -/

/-- One row of the historical series handed to the forecast models. -/
structure HistPoint where
  days_from_start : ℚ
  risk_score_at_time : ℚ
  deriving DecidableEq, Repr

/-- One produced prediction (the `period` label string is omitted; the period
is the list index plus one). -/
structure ForecastPoint where
  predicted_risk : ℚ
  confidence : ℚ
  deriving DecidableEq, Repr

/-- `generateStaticForecast`: flat forecast at the current risk (no rounding,
no clamping in the source), confidence `max 0.3 (0.8 - 0.05 i)`. -/
def generateStaticForecast (currentRisk : ℚ) (timeSteps : ℕ) : List ForecastPoint :=
  (List.range timeSteps).map fun i : ℕ =>
    { predicted_risk := currentRisk
      confidence := max 0.3 (0.8 - (i : ℚ) * 0.05) }

/-- `calculateLinearRegression`: ordinary least squares slope and intercept.
The rational division returns 0 on a zero denominator, where the JS source
would produce NaN; theorems over this model therefore assume a nonzero
denominator when the series has at least two points. -/
def calculateLinearRegression (data : List HistPoint) : ℚ × ℚ :=
  let n : ℚ := data.length
  let sumX := (data.map (fun p => p.days_from_start)).sum
  let sumY := (data.map (fun p => p.risk_score_at_time)).sum
  let sumXY := (data.map (fun p => p.days_from_start * p.risk_score_at_time)).sum
  let sumXX := (data.map (fun p => p.days_from_start * p.days_from_start)).sum
  let slope := (n * sumXY - sumX * sumY) / (n * sumXX - sumX * sumX)
  let intercept := (sumY - slope * sumX) / n
  (slope, intercept)

/-- The OLS denominator `n*sumXX - sumX^2`; zero exactly when all
`days_from_start` coincide. -/
def lrDenom (data : List HistPoint) : ℚ :=
  (data.length : ℚ) * (data.map (fun p => p.days_from_start * p.days_from_start)).sum
    - (data.map (fun p => p.days_from_start)).sum
      * (data.map (fun p => p.days_from_start)).sum

/-- `Math.max(...historicalData.map(d => d.days_from_start))`; only consulted
on series of length at least 2. -/
def maxDays (data : List HistPoint) : ℚ :=
  ((data.map (fun p => p.days_from_start)).maximum).getD 0

/-- `linearRegressionForecast`: OLS extrapolation at 30-day steps, clamped to
`[0,100]` and rounded to one decimal; static fallback below 2 points. -/
def linearRegressionForecast (data : List HistPoint) (currentRisk : ℚ)
    (timeSteps : ℕ) : List ForecastPoint :=
  if data.length < 2 then generateStaticForecast currentRisk timeSteps
  else
    (List.range timeSteps).map fun i : ℕ =>
      let futureTime := maxDays data + ((i : ℚ) + 1) * 30
      let predictedRisk := max 0 (min 100
        ((calculateLinearRegression data).1 * futureTime
          + (calculateLinearRegression data).2))
      { predicted_risk := round1 predictedRisk
        confidence := max 0.3 (0.9 - (i : ℚ) * 0.1) }

/-- The final smoothed value of `exponentialSmoothingForecast` with `α = 0.3`,
seeded at the current risk and folded over the series in order. -/
def smoothedValue (data : List HistPoint) (currentRisk : ℚ) : ℚ :=
  data.foldl (fun acc p => 0.3 * p.risk_score_at_time + 0.7 * acc) currentRisk

/-- `exponentialSmoothingForecast`: flat forecast at the final smoothed value
(rounded to one decimal, not clamped in the source), confidence
`max 0.4 (0.85 - 0.08 i)`. -/
def exponentialSmoothingForecast (data : List HistPoint) (currentRisk : ℚ)
    (timeSteps : ℕ) : List ForecastPoint :=
  (List.range timeSteps).map fun i : ℕ =>
    { predicted_risk := round1 (smoothedValue data currentRisk)
      confidence := max 0.4 (0.85 - (i : ℚ) * 0.08) }

/-- Mean of the successive first differences of the series. -/
def avgDifference (data : List HistPoint) : ℚ :=
  let diffs := (data.zip data.tail).map
    (fun q => q.2.risk_score_at_time - q.1.risk_score_at_time)
  diffs.sum / diffs.length

/-- `arimaForecast`: linear extrapolation of the mean first difference,
clamped to `[0,100]` and rounded to one decimal; falls back to exponential
smoothing below 3 points.  Confidence `max 0.5 (0.9 - 0.05 i)`. -/
def arimaForecast (data : List HistPoint) (currentRisk : ℚ)
    (timeSteps : ℕ) : List ForecastPoint :=
  if data.length < 3 then exponentialSmoothingForecast data currentRisk timeSteps
  else
    (List.range timeSteps).map fun i : ℕ =>
      let predictedRisk :=
        max 0 (min 100 (currentRisk + avgDifference data * ((i : ℚ) + 1)))
      { predicted_risk := round1 predictedRisk
        confidence := max 0.5 (0.9 - (i : ℚ) * 0.05) }

/-- `ensembleForecast`: per-period blend of the three variants with weights
0.3 / 0.3 / 0.4, value rounded to one decimal and confidence to two. -/
def ensembleForecast (data : List HistPoint) (currentRisk : ℚ)
    (timeSteps : ℕ) : List ForecastPoint :=
  (List.range timeSteps).map fun i : ℕ =>
    let l := (linearRegressionForecast data currentRisk timeSteps).getD i ⟨0, 0⟩
    let e := (exponentialSmoothingForecast data currentRisk timeSteps).getD i ⟨0, 0⟩
    let a := (arimaForecast data currentRisk timeSteps).getD i ⟨0, 0⟩
    { predicted_risk := round1 (l.predicted_risk * 0.3 + e.predicted_risk * 0.3
        + a.predicted_risk * 0.4)
      confidence := round2 (l.confidence * 0.3 + e.confidence * 0.3
        + a.confidence * 0.4) }

/-- `calculateTrendDirection`: percent change from first to last prediction.
When the first value is 0 the JS division yields +Infinity, -Infinity or NaN;
the embedding spells those comparisons out (positive last value compares as
greater than 5, negative as less than -5, zero compares as neither). -/
def calculateTrendDirection (preds : List ForecastPoint) : String :=
  if preds.length < 2 then "stable"
  else
    let firstRisk := (preds.head?.getD ⟨0, 0⟩).predicted_risk
    let lastRisk := (preds.getLast?.getD ⟨0, 0⟩).predicted_risk
    if firstRisk = 0 then
      if lastRisk > 0 then "increasing"
      else if lastRisk < 0 then "decreasing"
      else "stable"
    else
      let change := (lastRisk - firstRisk) / firstRisk * 100
      if change > 5 then "increasing"
      else if change < -5 then "decreasing"
      else "stable"

/-! ### External factor adjuster (`MLRiskService.calculateRiskScore`) -/

/-- The numeric external signals `calculateRiskScore` consumes. -/
structure ExternalFactorInputs where
  severe_weather_probability : ℚ
  hurricane_season : Bool
  unemployment_rate : ℚ
  accident_rate_increase : ℚ
  claims_frequency_trend : ℚ
  deriving DecidableEq, Repr

/-- The per-category adjustment breakdown returned in `factors`. -/
structure FactorAdjustments where
  weather : ℚ
  economic : ℚ
  traffic : ℚ
  market : ℚ
  temporal : ℚ
  deriving DecidableEq, Repr

/-- The deterministic fields of the object `calculateRiskScore` returns
(the sampled `confidence`, model version and timestamp are omitted). -/
structure RiskCalcResult where
  original_score : ℚ
  new_score : ℚ
  adjustment : ℚ
  factors : FactorAdjustments
  deriving DecidableEq, Repr

/-- States given the fixed +3 weather loading during hurricane season. -/
def hurricaneStates : List String := ["FL", "TX", "LA", "NC", "SC"]

/-- `MLRiskService.calculateRiskScore` (services/ml-service.js, lines 95-146):
threshold rules per factor category, sum, 0.7 smoothing, clamp of the new
score, one-decimal rounding of the reported score and adjustment.  The
time-dependent temporal loading is passed in as a parameter. -/
def calculateRiskScore (baseScore : ℚ) (state : String)
    (f : ExternalFactorInputs) (temporalAdjustment : ℚ) : RiskCalcResult :=
  let weather :=
    (if f.severe_weather_probability > 0.2 then f.severe_weather_probability * 10 else 0)
    + (if f.hurricane_season ∧ state ∈ hurricaneStates then 3 else 0)
  let economic :=
    if f.unemployment_rate > 0.06 then (f.unemployment_rate - 0.06) * 50 else 0
  let traffic := f.accident_rate_increase * 20
  let market := f.claims_frequency_trend * 15
  let temporal := temporalAdjustment
  let totalAdjustment := weather + economic + traffic + market + temporal
  let smoothedAdjustment := totalAdjustment * 0.7
  let newScore := max 0 (min 100 (baseScore + smoothedAdjustment))
  { original_score := baseScore
    new_score := round1 newScore
    adjustment := round1 smoothedAdjustment
    factors := ⟨weather, economic, traffic, market, temporal⟩ }

/-! ### Scenario validation (`ValidationMiddleware.validateScenarioData`) -/

/-- The request body fields `validateScenarioData` inspects (customer id
already parsed to an integer, `change_json` present as an object). -/
structure ScenarioRequest where
  customer_id : ℤ
  name : String
  change_json : ChangeJson
  deriving DecidableEq, Repr

/-- `validateStateCode`: the regex `[A-Z]{2}` anchored at both ends. -/
def validStateCode (s : String) : Bool :=
  s.length = 2 && s.data.all (fun ch => 'A' ≤ ch && ch ≤ 'Z')

/-- `ValidationMiddleware.validateScenarioData` (middleware/validation.js,
lines 68-138): the rejection checks in source order.  Note the source
validates `increase_deductible` against `[0, 10000]` but never inspects
`decrease_deductible`. -/
def validateScenarioData (r : ScenarioRequest) : Except String ScenarioRequest :=
  if r.customer_id = 0 then .error "MISSING_CUSTOMER_ID"
  else if r.customer_id ≤ 0 then .error "INVALID_CUSTOMER_ID"
  else if r.name = "" then .error "INVALID_SCENARIO_NAME"
  else if r.name.length > 255 then .error "SCENARIO_NAME_TOO_LONG"
  else if osTruthy r.change_json.move_state
      && !validStateCode (r.change_json.move_state.getD "") then
    .error "INVALID_STATE_CODE"
  else
    match r.change_json.increase_deductible with
    | some q => if q < 0 ∨ q > 10000 then .error "INVALID_DEDUCTIBLE" else .ok r
    | none => .ok r

/-- POST /api/scenario composed with its validation middleware: a rejected
request leaves the twin untouched and surfaces the error code; an accepted
one applies the impact unless `no_change` is set. -/
def scenarioEndpoint (twin : RiskTwin) (r : ScenarioRequest) :
    RiskTwin × Option String :=
  match validateScenarioData r with
  | .error e => (twin, some e)
  | .ok v =>
      (if v.change_json.no_change then twin
       else applyScenarioImpact twin v.change_json, none)

/-! ## Helper lemmas -/

theorem getD_range_map {α : Type} (f : ℕ → α) (d : α) {ts i : ℕ} (hi : i < ts) :
    ((List.range ts).map f).getD i d = f i := by
  rw [List.getD_eq_getElem _ _ (by simpa using hi)]
  simp

theorem round1_mono {a b : ℚ} (h : a ≤ b) : round1 a ≤ round1 b := by
  unfold round1
  have h10 : round (10 * a) ≤ round (10 * b) := by
    rw [round_eq, round_eq]
    exact Int.floor_mono (by linarith)
  have hq : ((round (10 * a) : ℤ) : ℚ) ≤ ((round (10 * b) : ℤ) : ℚ) := by
    exact_mod_cast h10
  linarith

theorem round2_mono {a b : ℚ} (h : a ≤ b) : round2 a ≤ round2 b := by
  unfold round2
  have h100 : round (100 * a) ≤ round (100 * b) := by
    rw [round_eq, round_eq]
    exact Int.floor_mono (by linarith)
  have hq : ((round (100 * a) : ℤ) : ℚ) ≤ ((round (100 * b) : ℤ) : ℚ) := by
    exact_mod_cast h100
  linarith

theorem round1_tenth (k : ℤ) : round1 ((k : ℚ) / 10) = (k : ℚ) / 10 := by
  unfold round1
  have : (10 : ℚ) * (k / 10) = (k : ℚ) := by ring
  rw [this, round_intCast]

theorem round1_add_tenth (x : ℚ) (k : ℤ) :
    round1 (x + (k : ℚ) / 10) = round1 x + (k : ℚ) / 10 := by
  unfold round1
  have : (10 : ℚ) * (x + k / 10) = 10 * x + k := by ring
  rw [this, round_add_int]
  push_cast
  ring

theorem round1_scale_between (d : ℚ) :
    min 0 d ≤ round1 (0.3 * d) ∧ round1 (0.3 * d) ≤ max 0 d := by
  have hrw : round1 (0.3 * d) = (⌊3 * d + 1 / 2⌋ : ℚ) / 10 := by
    unfold round1
    rw [show (10 : ℚ) * (0.3 * d) = 3 * d by ring, round_eq]
  rw [hrw]
  rcases le_or_lt 0 d with hd | hd
  · have h0 : (0 : ℤ) ≤ ⌊3 * d + 1 / 2⌋ := Int.le_floor.mpr (by push_cast; linarith)
    have h0q : (0 : ℚ) ≤ (⌊3 * d + 1 / 2⌋ : ℚ) := by exact_mod_cast h0
    constructor
    · simp only [min_eq_left hd]
      linarith
    · rcases le_or_lt (1 / 14 : ℚ) d with h14 | h14
      · have hle : (⌊3 * d + 1 / 2⌋ : ℚ) ≤ 3 * d + 1 / 2 := Int.floor_le _
        have : (⌊3 * d + 1 / 2⌋ : ℚ) / 10 ≤ d := by linarith
        exact le_trans this (le_max_right 0 d)
      · have hlt : ⌊3 * d + 1 / 2⌋ < 1 := Int.floor_lt.mpr (by push_cast; linarith)
        have hle0 : (⌊3 * d + 1 / 2⌋ : ℚ) ≤ 0 := by exact_mod_cast Int.lt_add_one_iff.mp hlt
        have : (⌊3 * d + 1 / 2⌋ : ℚ) / 10 ≤ 0 := by linarith
        exact le_trans this (le_max_left 0 d)
  · have hlt : ⌊3 * d + 1 / 2⌋ < 1 := Int.floor_lt.mpr (by push_cast; linarith)
    have hle0 : (⌊3 * d + 1 / 2⌋ : ℚ) ≤ 0 := by exact_mod_cast Int.lt_add_one_iff.mp hlt
    constructor
    · rcases le_or_lt d (-(1 / 14) : ℚ) with h14 | h14
      · have hgt : 3 * d + 1 / 2 - 1 < (⌊3 * d + 1 / 2⌋ : ℚ) := Int.sub_one_lt_floor _
        have : d ≤ (⌊3 * d + 1 / 2⌋ : ℚ) / 10 := by linarith
        exact le_trans (min_le_right 0 d) this
      · have h0 : (0 : ℤ) ≤ ⌊3 * d + 1 / 2⌋ := Int.le_floor.mpr (by push_cast; linarith)
        have h0q : (0 : ℚ) ≤ (⌊3 * d + 1 / 2⌋ : ℚ) := by exact_mod_cast h0
        have : d ≤ (⌊3 * d + 1 / 2⌋ : ℚ) / 10 := by linarith
        exact le_trans (min_le_right 0 d) this
    · have : (⌊3 * d + 1 / 2⌋ : ℚ) / 10 ≤ 0 := by linarith
      exact le_trans this (le_max_left 0 d)

/-! ## Claim theorems -/

/-- C1: for every input profile and every scenario change, the profile
`applyScenarioImpact` returns satisfies `0 ≤ base_risk_score ≤ 100`,
`0 ≤ claim_probability ≤ 1` and `expected_loss ≥ 0`, and each returned field
is exactly the single clamp of the fully multiplied (jurisdiction ratio then
deductible factor) unclamped value — clamping happens once, as the last step,
never between the two adjustments. -/
theorem scenario_clamp_once_and_bounds (t : RiskTwin) (c : ChangeJson) :
    0 ≤ (applyScenarioImpact t c).base_risk_score ∧
    (applyScenarioImpact t c).base_risk_score ≤ 100 ∧
    0 ≤ (applyScenarioImpact t c).next12m_claim_prob ∧
    (applyScenarioImpact t c).next12m_claim_prob ≤ 1 ∧
    0 ≤ (applyScenarioImpact t c).next12m_expected_loss ∧
    (applyScenarioImpact t c).base_risk_score
      = max 0 (min 100 (rawScenarioImpact t c).base_risk_score) ∧
    (applyScenarioImpact t c).next12m_claim_prob
      = max 0 (min 1 (rawScenarioImpact t c).next12m_claim_prob) ∧
    (applyScenarioImpact t c).next12m_expected_loss
      = max 0 (rawScenarioImpact t c).next12m_expected_loss ∧
    (applyScenarioImpact t c).state = (rawScenarioImpact t c).state := by
  have hb : (applyScenarioImpact t c).base_risk_score
      = max 0 (min 100 (rawScenarioImpact t c).base_risk_score) := by
    simp only [applyScenarioImpact, rawScenarioImpact]
    split_ifs <;> ring_nf
  have hp : (applyScenarioImpact t c).next12m_claim_prob
      = max 0 (min 1 (rawScenarioImpact t c).next12m_claim_prob) := by
    simp only [applyScenarioImpact, rawScenarioImpact]
    split_ifs <;> ring_nf
  have hl : (applyScenarioImpact t c).next12m_expected_loss
      = max 0 (rawScenarioImpact t c).next12m_expected_loss := by
    simp only [applyScenarioImpact, rawScenarioImpact]
    split_ifs <;> ring_nf
  have hs : (applyScenarioImpact t c).state = (rawScenarioImpact t c).state := by
    simp only [applyScenarioImpact, rawScenarioImpact]
    split_ifs <;> rfl
  refine ⟨?_, ?_, ?_, ?_, ?_, hb, hp, hl, hs⟩
  · rw [hb]; exact le_max_left 0 _
  · rw [hb]; exact max_le (by norm_num) (min_le_left _ _)
  · rw [hp]; exact le_max_left 0 _
  · rw [hp]; exact max_le (by norm_num) (min_le_left _ _)
  · rw [hl]; exact le_max_left 0 _

/-- C3: starting from profile (78.5, 0.38, 4200, FL) with an empty ledger,
the combined move-to-CA plus increase-deductible-500 scenario multiplies the
three risk fields by the jurisdiction ratio 1.12/1.15 and then by the
deductible factor 0.95, giving a final score within 0.01 of 72.63 (and a
post-move score within 0.01 of 76.45), and leaves the ledger with exactly
the entry CA ↦ 500. -/
theorem scenario_example_fl_ca :
    (scenarioStep ⟨⟨78.5, 0.38, 4200, "FL"⟩, []⟩ ⟨"CA", 500, .increase⟩).1.twin.base_risk_score
      = 78.5 * (1.12 / 1.15) * (1 - 500 * 0.0001) ∧
    (scenarioStep ⟨⟨78.5, 0.38, 4200, "FL"⟩, []⟩ ⟨"CA", 500, .increase⟩).1.twin.next12m_claim_prob
      = 0.38 * (1.12 / 1.15) * (1 - 500 * 0.0001) ∧
    (scenarioStep ⟨⟨78.5, 0.38, 4200, "FL"⟩, []⟩ ⟨"CA", 500, .increase⟩).1.twin.next12m_expected_loss
      = 4200 * (1.12 / 1.15) * (1 - 500 * 0.0001) ∧
    (1 - 500 * 0.0001 : ℚ) = 0.95 ∧
    |(scenarioStep ⟨⟨78.5, 0.38, 4200, "FL"⟩, []⟩ ⟨"CA", 500, .increase⟩).1.twin.base_risk_score
      - 72.63| < 0.01 ∧
    |(78.5 * (1.12 / 1.15) : ℚ) - 76.45| < 0.01 ∧
    (scenarioStep ⟨⟨78.5, 0.38, 4200, "FL"⟩, []⟩ ⟨"CA", 500, .increase⟩).1.twin.state = "CA" ∧
    (scenarioStep ⟨⟨78.5, 0.38, 4200, "FL"⟩, []⟩ ⟨"CA", 500, .increase⟩).1.history
      = [("CA", 500)] := by
  have hclient : applyScenario [] "FL" ⟨"CA", 500, .increase⟩
      = ({ move_state := some "CA", increase_deductible := some 500,
           before_deductible := some 0, final_deductible := some 500 },
         [("CA", 500)], false) := by
    norm_num [applyScenario, histTruthy, histLookup, oqTruthy, dedChangeFields,
      newDeductible, histSet, List.find?, show ("CA" : String) ≠ "" by decide,
      show ("CA" : String) ≠ "FL" by decide]
  have hstep : scenarioStep ⟨⟨78.5, 0.38, 4200, "FL"⟩, []⟩ ⟨"CA", 500, .increase⟩
      = (⟨⟨78.5 * (1.12 / 1.15) * (1 - 500 * 0.0001),
           0.38 * (1.12 / 1.15) * (1 - 500 * 0.0001),
           4200 * (1.12 / 1.15) * (1 - 500 * 0.0001), "CA"⟩, [("CA", 500)]⟩, false) := by
    simp only [scenarioStep, hclient]
    norm_num [applyScenarioImpact, osTruthy, oqTruthy, deductibleChange, stateFactor,
      stateRiskFactors, List.find?, show ("CA" : String) ≠ "" by decide,
      show ("FL" : String) ≠ "CA" by decide]
  rw [hstep]
  refine ⟨rfl, rfl, rfl, by norm_num, ?_, ?_, rfl, rfl⟩
  · rw [abs_lt]; constructor <;> norm_num
  · rw [abs_lt]; constructor <;> norm_num

/-- C8 (amended): each factor category of `calculateRiskScore` contributes
independently exactly as specified (weather threshold 0.2 with the fixed +3
hazard loading, economic threshold 0.06, traffic ×20, market ×15, temporal
as supplied); the reported `adjustment` is the sum of the five contributions
times 0.7 **rounded to one decimal**, and the reported `new_score` is the
clamped `base + raw*0.7` rounded to one decimal. -/
theorem adjuster_contributions (base : ℚ) (state : String)
    (f : ExternalFactorInputs) (temporal : ℚ) :
    (calculateRiskScore base state f temporal).factors.weather
      = (if f.severe_weather_probability > 0.2 then f.severe_weather_probability * 10 else 0)
        + (if f.hurricane_season ∧ state ∈ hurricaneStates then 3 else 0) ∧
    (calculateRiskScore base state f temporal).factors.economic
      = (if f.unemployment_rate > 0.06 then (f.unemployment_rate - 0.06) * 50 else 0) ∧
    (calculateRiskScore base state f temporal).factors.traffic
      = f.accident_rate_increase * 20 ∧
    (calculateRiskScore base state f temporal).factors.market
      = f.claims_frequency_trend * 15 ∧
    (calculateRiskScore base state f temporal).factors.temporal = temporal ∧
    (calculateRiskScore base state f temporal).adjustment
      = round1 (((calculateRiskScore base state f temporal).factors.weather
          + (calculateRiskScore base state f temporal).factors.economic
          + (calculateRiskScore base state f temporal).factors.traffic
          + (calculateRiskScore base state f temporal).factors.market
          + (calculateRiskScore base state f temporal).factors.temporal) * 0.7) ∧
    (calculateRiskScore base state f temporal).new_score
      = round1 (max 0 (min 100 (base
          + ((calculateRiskScore base state f temporal).factors.weather
          + (calculateRiskScore base state f temporal).factors.economic
          + (calculateRiskScore base state f temporal).factors.traffic
          + (calculateRiskScore base state f temporal).factors.market
          + (calculateRiskScore base state f temporal).factors.temporal) * 0.7))) := by
  refine ⟨rfl, rfl, rfl, rfl, rfl, rfl, rfl⟩

/-- C8 counterexample: with every external signal zero and a temporal
loading of 0.01, the sum of contributions is 0.01, so the claimed output
delta would be 0.007, but the returned `adjustment` is 0 (the source rounds
`raw * 0.7` with `toFixed(1)`). -/
theorem adjuster_delta_counterexample :
    (calculateRiskScore 50 "WA" ⟨0, false, 0, 0, 0⟩ 0.01).factors.weather
      + (calculateRiskScore 50 "WA" ⟨0, false, 0, 0, 0⟩ 0.01).factors.economic
      + (calculateRiskScore 50 "WA" ⟨0, false, 0, 0, 0⟩ 0.01).factors.traffic
      + (calculateRiskScore 50 "WA" ⟨0, false, 0, 0, 0⟩ 0.01).factors.market
      + (calculateRiskScore 50 "WA" ⟨0, false, 0, 0, 0⟩ 0.01).factors.temporal = 0.01 ∧
    (calculateRiskScore 50 "WA" ⟨0, false, 0, 0, 0⟩ 0.01).adjustment = 0 ∧
    (0.01 * 0.7 : ℚ) ≠ 0 := by
  refine ⟨?_, ?_, by norm_num⟩ <;>
    norm_num [calculateRiskScore, hurricaneStates, round1, round_eq]

/-! ## Forecast indexing lemmas -/

theorem staticForecast_getD (cur : ℚ) {ts i : ℕ} (hi : i < ts) :
    (generateStaticForecast cur ts).getD i ⟨0, 0⟩
      = ⟨cur, max 0.3 (0.8 - (i : ℚ) * 0.05)⟩ := by
  unfold generateStaticForecast
  rw [getD_range_map _ _ hi]

theorem linearForecast_getD (data : List HistPoint) (cur : ℚ) {ts i : ℕ}
    (hi : i < ts) :
    (linearRegressionForecast data cur ts).getD i ⟨0, 0⟩
      = if data.length < 2 then ⟨cur, max 0.3 (0.8 - (i : ℚ) * 0.05)⟩
        else ⟨round1 (max 0 (min 100
            ((calculateLinearRegression data).1 * (maxDays data + ((i : ℚ) + 1) * 30)
              + (calculateLinearRegression data).2))),
          max 0.3 (0.9 - (i : ℚ) * 0.1)⟩ := by
  unfold linearRegressionForecast
  split_ifs with h
  · exact staticForecast_getD cur hi
  · rw [getD_range_map _ _ hi]

theorem expForecast_getD (data : List HistPoint) (cur : ℚ) {ts i : ℕ}
    (hi : i < ts) :
    (exponentialSmoothingForecast data cur ts).getD i ⟨0, 0⟩
      = ⟨round1 (smoothedValue data cur), max 0.4 (0.85 - (i : ℚ) * 0.08)⟩ := by
  unfold exponentialSmoothingForecast
  rw [getD_range_map _ _ hi]

theorem arimaForecast_getD (data : List HistPoint) (cur : ℚ) {ts i : ℕ}
    (hi : i < ts) :
    (arimaForecast data cur ts).getD i ⟨0, 0⟩
      = if data.length < 3 then
          ⟨round1 (smoothedValue data cur), max 0.4 (0.85 - (i : ℚ) * 0.08)⟩
        else ⟨round1 (max 0 (min 100 (cur + avgDifference data * ((i : ℚ) + 1)))),
          max 0.5 (0.9 - (i : ℚ) * 0.05)⟩ := by
  unfold arimaForecast
  split_ifs with h
  · exact expForecast_getD data cur hi
  · rw [getD_range_map _ _ hi]

theorem ensembleForecast_getD (data : List HistPoint) (cur : ℚ) {ts i : ℕ}
    (hi : i < ts) :
    (ensembleForecast data cur ts).getD i ⟨0, 0⟩
      = ⟨round1 (((linearRegressionForecast data cur ts).getD i ⟨0, 0⟩).predicted_risk * 0.3
          + ((exponentialSmoothingForecast data cur ts).getD i ⟨0, 0⟩).predicted_risk * 0.3
          + ((arimaForecast data cur ts).getD i ⟨0, 0⟩).predicted_risk * 0.4),
        round2 (((linearRegressionForecast data cur ts).getD i ⟨0, 0⟩).confidence * 0.3
          + ((exponentialSmoothingForecast data cur ts).getD i ⟨0, 0⟩).confidence * 0.3
          + ((arimaForecast data cur ts).getD i ⟨0, 0⟩).confidence * 0.4)⟩ := by
  unfold ensembleForecast
  rw [getD_range_map _ _ hi]

/-! ## Confidence and grid helper lemmas -/

theorem decay_conf_step {c a b : ℚ} (hb : 0 ≤ b) (i : ℕ) :
    max c (a - ((i + 1 : ℕ) : ℚ) * b) ≤ max c (a - (i : ℚ) * b) := by
  apply max_le (le_max_left _ _)
  apply le_max_of_le_right
  have : ((i : ℚ)) * b ≤ ((i + 1 : ℕ) : ℚ) * b := by
    apply mul_le_mul_of_nonneg_right _ hb
    push_cast
    linarith
  linarith

theorem decay_conf_bounds {c a b : ℚ} (hc : 0 < c) (hca : c ≤ a) (ha : a ≤ 1)
    (hb : 0 ≤ b) (i : ℕ) :
    c ≤ max c (a - (i : ℚ) * b) ∧ max c (a - (i : ℚ) * b) ≤ a ∧
    0 < max c (a - (i : ℚ) * b) ∧ max c (a - (i : ℚ) * b) ≤ 1 := by
  have hib : 0 ≤ (i : ℚ) * b := mul_nonneg (by positivity) hb
  have hup : max c (a - (i : ℚ) * b) ≤ a := max_le hca (by linarith)
  exact ⟨le_max_left _ _, hup, lt_of_lt_of_le hc (le_max_left _ _), le_trans hup ha⟩

theorem round1_grid (x : ℚ) : ∃ k : ℤ, round1 x = (k : ℚ) / 10 :=
  ⟨round (10 * x), rfl⟩

theorem round1_blend_between {l e a : ℚ}
    (hl : ∃ k : ℤ, l = (k : ℚ) / 10) (he : ∃ k : ℤ, e = (k : ℚ) / 10)
    (ha : ∃ k : ℤ, a = (k : ℚ) / 10) :
    min l (min e a) ≤ round1 (l * 0.3 + e * 0.3 + a * 0.4) ∧
    round1 (l * 0.3 + e * 0.3 + a * 0.4) ≤ max l (max e a) := by
  obtain ⟨km, hkm⟩ : ∃ k : ℤ, min l (min e a) = (k : ℚ) / 10 := by
    rcases min_choice l (min e a) with h | h
    · rw [h]; exact hl
    · rw [h]
      rcases min_choice e a with h2 | h2
      · rw [h2]; exact he
      · rw [h2]; exact ha
  obtain ⟨kM, hkM⟩ : ∃ k : ℤ, max l (max e a) = (k : ℚ) / 10 := by
    rcases max_choice l (max e a) with h | h
    · rw [h]; exact hl
    · rw [h]
      rcases max_choice e a with h2 | h2
      · rw [h2]; exact he
      · rw [h2]; exact ha
  have hml : min l (min e a) ≤ l := min_le_left _ _
  have hme : min l (min e a) ≤ e := le_trans (min_le_right _ _) (min_le_left _ _)
  have hma : min l (min e a) ≤ a := le_trans (min_le_right _ _) (min_le_right _ _)
  have hMl : l ≤ max l (max e a) := le_max_left _ _
  have hMe : e ≤ max l (max e a) := le_trans (le_max_left _ _) (le_max_right _ _)
  have hMa : a ≤ max l (max e a) := le_trans (le_max_right _ _) (le_max_right _ _)
  constructor
  · calc min l (min e a) = round1 (min l (min e a)) := by rw [hkm, round1_tenth]
      _ ≤ round1 (l * 0.3 + e * 0.3 + a * 0.4) := round1_mono (by linarith)
  · calc round1 (l * 0.3 + e * 0.3 + a * 0.4)
        ≤ round1 (max l (max e a)) := round1_mono (by linarith)
      _ = max l (max e a) := by rw [hkM, round1_tenth]

theorem round1_static_blend (cur s : ℚ) :
    min cur (round1 s) ≤ round1 (cur * 0.3 + round1 s * 0.3 + round1 s * 0.4) ∧
    round1 (cur * 0.3 + round1 s * 0.3 + round1 s * 0.4) ≤ max cur (round1 s) := by
  obtain ⟨k, hk⟩ := round1_grid s
  have harg : cur * 0.3 + round1 s * 0.3 + round1 s * 0.4
      = 0.3 * (cur - round1 s) + (k : ℚ) / 10 := by
    rw [hk]; ring
  have key : round1 (cur * 0.3 + round1 s * 0.3 + round1 s * 0.4)
      = round1 (0.3 * (cur - round1 s)) + round1 s := by
    rw [harg, round1_add_tenth, hk]
  obtain ⟨hlo, hhi⟩ := round1_scale_between (cur - round1 s)
  constructor
  · rw [key]
    have : min 0 (cur - round1 s) + round1 s ≤ round1 (0.3 * (cur - round1 s)) + round1 s := by
      linarith
    refine le_trans ?_ this
    rcases le_total cur (round1 s) with h | h
    · rw [min_eq_left h, min_eq_right (by linarith : cur - round1 s ≤ (0 : ℚ))]
      linarith
    · rw [min_eq_right h, min_eq_left (by linarith : (0 : ℚ) ≤ cur - round1 s)]
      linarith
  · rw [key]
    have : round1 (0.3 * (cur - round1 s)) + round1 s ≤ max 0 (cur - round1 s) + round1 s := by
      linarith
    refine le_trans this ?_
    rcases le_total cur (round1 s) with h | h
    · rw [max_eq_right h, max_eq_left (by linarith : cur - round1 s ≤ (0 : ℚ))]
      linarith
    · rw [max_eq_left h, max_eq_right (by linarith : (0 : ℚ) ≤ cur - round1 s)]
      linarith

/-! ## Per-model confidence facts -/

theorem linear_conf_step (data : List HistPoint) (cur : ℚ) {ts i : ℕ}
    (h : i + 1 < ts) :
    ((linearRegressionForecast data cur ts).getD (i + 1) ⟨0, 0⟩).confidence
      ≤ ((linearRegressionForecast data cur ts).getD i ⟨0, 0⟩).confidence := by
  rw [linearForecast_getD data cur h, linearForecast_getD data cur (by omega : i < ts)]
  split_ifs <;> exact decay_conf_step (by norm_num) i

theorem linear_conf_bounds (data : List HistPoint) (cur : ℚ) {ts i : ℕ}
    (hi : i < ts) :
    0.3 ≤ ((linearRegressionForecast data cur ts).getD i ⟨0, 0⟩).confidence ∧
    ((linearRegressionForecast data cur ts).getD i ⟨0, 0⟩).confidence ≤ 0.9 := by
  rw [linearForecast_getD data cur hi]
  split_ifs
  · have h := decay_conf_bounds (by norm_num : (0 : ℚ) < 0.3)
      (by norm_num : (0.3 : ℚ) ≤ 0.8) (by norm_num) (by norm_num : (0 : ℚ) ≤ 0.05) i
    exact ⟨h.1, le_trans h.2.1 (by norm_num)⟩
  · have h := decay_conf_bounds (by norm_num : (0 : ℚ) < 0.3)
      (by norm_num : (0.3 : ℚ) ≤ 0.9) (by norm_num) (by norm_num : (0 : ℚ) ≤ 0.1) i
    exact ⟨h.1, h.2.1⟩

theorem exp_conf_step (data : List HistPoint) (cur : ℚ) {ts i : ℕ}
    (h : i + 1 < ts) :
    ((exponentialSmoothingForecast data cur ts).getD (i + 1) ⟨0, 0⟩).confidence
      ≤ ((exponentialSmoothingForecast data cur ts).getD i ⟨0, 0⟩).confidence := by
  rw [expForecast_getD data cur h, expForecast_getD data cur (by omega : i < ts)]
  exact decay_conf_step (by norm_num) i

theorem exp_conf_bounds (data : List HistPoint) (cur : ℚ) {ts i : ℕ}
    (hi : i < ts) :
    0.4 ≤ ((exponentialSmoothingForecast data cur ts).getD i ⟨0, 0⟩).confidence ∧
    ((exponentialSmoothingForecast data cur ts).getD i ⟨0, 0⟩).confidence ≤ 0.85 := by
  rw [expForecast_getD data cur hi]
  have h := decay_conf_bounds (by norm_num : (0 : ℚ) < 0.4)
    (by norm_num : (0.4 : ℚ) ≤ 0.85) (by norm_num) (by norm_num : (0 : ℚ) ≤ 0.08) i
  exact ⟨h.1, h.2.1⟩

theorem arima_conf_step (data : List HistPoint) (cur : ℚ) {ts i : ℕ}
    (h : i + 1 < ts) :
    ((arimaForecast data cur ts).getD (i + 1) ⟨0, 0⟩).confidence
      ≤ ((arimaForecast data cur ts).getD i ⟨0, 0⟩).confidence := by
  rw [arimaForecast_getD data cur h, arimaForecast_getD data cur (by omega : i < ts)]
  split_ifs <;> exact decay_conf_step (by norm_num) i

theorem arima_conf_bounds (data : List HistPoint) (cur : ℚ) {ts i : ℕ}
    (hi : i < ts) :
    0.4 ≤ ((arimaForecast data cur ts).getD i ⟨0, 0⟩).confidence ∧
    ((arimaForecast data cur ts).getD i ⟨0, 0⟩).confidence ≤ 0.9 := by
  rw [arimaForecast_getD data cur hi]
  split_ifs
  · have h := decay_conf_bounds (by norm_num : (0 : ℚ) < 0.4)
      (by norm_num : (0.4 : ℚ) ≤ 0.85) (by norm_num) (by norm_num : (0 : ℚ) ≤ 0.08) i
    exact ⟨h.1, le_trans h.2.1 (by norm_num)⟩
  · have h := decay_conf_bounds (by norm_num : (0 : ℚ) < 0.5)
      (by norm_num : (0.5 : ℚ) ≤ 0.9) (by norm_num) (by norm_num : (0 : ℚ) ≤ 0.05) i
    exact ⟨le_trans (by norm_num) h.1, h.2.1⟩

theorem ensemble_conf_step (data : List HistPoint) (cur : ℚ) {ts i : ℕ}
    (h : i + 1 < ts) :
    ((ensembleForecast data cur ts).getD (i + 1) ⟨0, 0⟩).confidence
      ≤ ((ensembleForecast data cur ts).getD i ⟨0, 0⟩).confidence := by
  rw [ensembleForecast_getD data cur h, ensembleForecast_getD data cur (by omega : i < ts)]
  have h1 := linear_conf_step data cur h
  have h2 := exp_conf_step data cur h
  have h3 := arima_conf_step data cur h
  exact round2_mono (by linarith)

theorem ensemble_conf_bounds (data : List HistPoint) (cur : ℚ) {ts i : ℕ}
    (hi : i < ts) :
    0.37 ≤ ((ensembleForecast data cur ts).getD i ⟨0, 0⟩).confidence ∧
    ((ensembleForecast data cur ts).getD i ⟨0, 0⟩).confidence ≤ 0.89 := by
  rw [ensembleForecast_getD data cur hi]
  obtain ⟨l1, l2⟩ := linear_conf_bounds data cur hi
  obtain ⟨e1, e2⟩ := exp_conf_bounds data cur hi
  obtain ⟨a1, a2⟩ := arima_conf_bounds data cur hi
  constructor
  · have hlow : (0.37 : ℚ) = round2 0.37 := by norm_num [round2, round_eq]
    rw [hlow]
    exact round2_mono (by linarith)
  · have hup : round2 0.885 = (0.89 : ℚ) := by norm_num [round2, round_eq]
    calc round2 _ ≤ round2 0.885 := round2_mono (by linarith)
      _ = 0.89 := hup

/-- C6: for each ForecastModel variant (LinearTrend, ExponentialSmoothing,
DampedAutoregressive) and for the ensemble, the produced confidence sequence
is monotonically non-increasing in the period index, and every confidence
value lies in the interval (0, 1]. -/
theorem confidence_monotone_bounded (data : List HistPoint) (cur : ℚ) (ts : ℕ)
    (F : List ForecastPoint)
    (hF : F = linearRegressionForecast data cur ts ∨
          F = exponentialSmoothingForecast data cur ts ∨
          F = arimaForecast data cur ts ∨
          F = ensembleForecast data cur ts) (i : ℕ) :
    (i + 1 < ts → (F.getD (i + 1) ⟨0, 0⟩).confidence ≤ (F.getD i ⟨0, 0⟩).confidence) ∧
    (i < ts → 0 < (F.getD i ⟨0, 0⟩).confidence ∧ (F.getD i ⟨0, 0⟩).confidence ≤ 1) := by
  rcases hF with h | h | h | h <;> subst h
  · exact ⟨fun hs => linear_conf_step data cur hs,
      fun hi => ⟨lt_of_lt_of_le (by norm_num) (linear_conf_bounds data cur hi).1,
        le_trans (linear_conf_bounds data cur hi).2 (by norm_num)⟩⟩
  · exact ⟨fun hs => exp_conf_step data cur hs,
      fun hi => ⟨lt_of_lt_of_le (by norm_num) (exp_conf_bounds data cur hi).1,
        le_trans (exp_conf_bounds data cur hi).2 (by norm_num)⟩⟩
  · exact ⟨fun hs => arima_conf_step data cur hs,
      fun hi => ⟨lt_of_lt_of_le (by norm_num) (arima_conf_bounds data cur hi).1,
        le_trans (arima_conf_bounds data cur hi).2 (by norm_num)⟩⟩
  · exact ⟨fun hs => ensemble_conf_step data cur hs,
      fun hi => ⟨lt_of_lt_of_le (by norm_num) (ensemble_conf_bounds data cur hi).1,
        le_trans (ensemble_conf_bounds data cur hi).2 (by norm_num)⟩⟩

/-- C6 witness: on the concrete series [60, 62, 64] with current value 64 and
horizon 2, the ensemble confidence sequence is non-increasing from period 1
to period 2 and the first confidence lies in (0, 1]. -/
theorem confidence_monotone_bounded_witness :
    ((ensembleForecast [⟨0, 60⟩, ⟨30, 62⟩, ⟨60, 64⟩] 64 2).getD 1 ⟨0, 0⟩).confidence
      ≤ ((ensembleForecast [⟨0, 60⟩, ⟨30, 62⟩, ⟨60, 64⟩] 64 2).getD 0 ⟨0, 0⟩).confidence ∧
    0 < ((ensembleForecast [⟨0, 60⟩, ⟨30, 62⟩, ⟨60, 64⟩] 64 2).getD 0 ⟨0, 0⟩).confidence ∧
    ((ensembleForecast [⟨0, 60⟩, ⟨30, 62⟩, ⟨60, 64⟩] 64 2).getD 0 ⟨0, 0⟩).confidence ≤ 1 :=
  ⟨(confidence_monotone_bounded [⟨0, 60⟩, ⟨30, 62⟩, ⟨60, 64⟩] 64 2 _
      (Or.inr (Or.inr (Or.inr rfl))) 0).1 (by norm_num),
   (confidence_monotone_bounded [⟨0, 60⟩, ⟨30, 62⟩, ⟨60, 64⟩] 64 2 _
      (Or.inr (Or.inr (Or.inr rfl))) 0).2 (by norm_num)⟩

/-- C5: for every historical series, current value and horizon (restricted to
series whose least-squares denominator is nonzero when the regression branch
is taken — on degenerate series the JS source produces NaN, which the
rational model does not represent), the ensemble's blended predicted value at
each period lies between the minimum and the maximum of the three variant
models' predicted values at that period. -/
theorem ensemble_value_between_variants (data : List HistPoint) (cur : ℚ)
    (ts i : ℕ) (hi : i < ts) (_hreg : 2 ≤ data.length → lrDenom data ≠ 0) :
    min ((linearRegressionForecast data cur ts).getD i ⟨0, 0⟩).predicted_risk
        (min ((exponentialSmoothingForecast data cur ts).getD i ⟨0, 0⟩).predicted_risk
          ((arimaForecast data cur ts).getD i ⟨0, 0⟩).predicted_risk)
      ≤ ((ensembleForecast data cur ts).getD i ⟨0, 0⟩).predicted_risk ∧
    ((ensembleForecast data cur ts).getD i ⟨0, 0⟩).predicted_risk
      ≤ max ((linearRegressionForecast data cur ts).getD i ⟨0, 0⟩).predicted_risk
          (max ((exponentialSmoothingForecast data cur ts).getD i ⟨0, 0⟩).predicted_risk
            ((arimaForecast data cur ts).getD i ⟨0, 0⟩).predicted_risk) := by
  rw [ensembleForecast_getD data cur hi]
  by_cases hlen : data.length < 2
  · rw [linearForecast_getD data cur hi, if_pos hlen, expForecast_getD data cur hi,
      arimaForecast_getD data cur hi, if_pos (by omega : data.length < 3)]
    dsimp only
    rw [min_self, max_self]
    exact round1_static_blend cur (smoothedValue data cur)
  · rw [linearForecast_getD data cur hi, if_neg hlen, expForecast_getD data cur hi]
    by_cases h3 : data.length < 3
    · rw [arimaForecast_getD data cur hi, if_pos h3]
      dsimp only
      exact round1_blend_between (round1_grid _) (round1_grid _) (round1_grid _)
    · rw [arimaForecast_getD data cur hi, if_neg h3]
      dsimp only
      exact round1_blend_between (round1_grid _) (round1_grid _) (round1_grid _)

/-- C5 witness: on the concrete series [60, 62, 64] (distinct timestamps, so
the regression denominator is nonzero) with current value 64 and horizon 2,
the first blended ensemble value lies between the three variants' values. -/
theorem ensemble_value_between_variants_witness :
    min ((linearRegressionForecast [⟨0, 60⟩, ⟨30, 62⟩, ⟨60, 64⟩] 64 2).getD 0 ⟨0, 0⟩).predicted_risk
        (min ((exponentialSmoothingForecast [⟨0, 60⟩, ⟨30, 62⟩, ⟨60, 64⟩] 64 2).getD 0 ⟨0, 0⟩).predicted_risk
          ((arimaForecast [⟨0, 60⟩, ⟨30, 62⟩, ⟨60, 64⟩] 64 2).getD 0 ⟨0, 0⟩).predicted_risk)
      ≤ ((ensembleForecast [⟨0, 60⟩, ⟨30, 62⟩, ⟨60, 64⟩] 64 2).getD 0 ⟨0, 0⟩).predicted_risk ∧
    ((ensembleForecast [⟨0, 60⟩, ⟨30, 62⟩, ⟨60, 64⟩] 64 2).getD 0 ⟨0, 0⟩).predicted_risk
      ≤ max ((linearRegressionForecast [⟨0, 60⟩, ⟨30, 62⟩, ⟨60, 64⟩] 64 2).getD 0 ⟨0, 0⟩).predicted_risk
          (max ((exponentialSmoothingForecast [⟨0, 60⟩, ⟨30, 62⟩, ⟨60, 64⟩] 64 2).getD 0 ⟨0, 0⟩).predicted_risk
            ((arimaForecast [⟨0, 60⟩, ⟨30, 62⟩, ⟨60, 64⟩] 64 2).getD 0 ⟨0, 0⟩).predicted_risk) :=
  ensemble_value_between_variants [⟨0, 60⟩, ⟨30, 62⟩, ⟨60, 64⟩] 64 2 0 (by norm_num)
    (fun _ => by norm_num [lrDenom])

/-- C7 (amended): for a series with at least 3 points, DampedAutoregressive
predicts the mean first difference extrapolation `current + Δ*i` clamped to
[0, 100] **and then rounded to one decimal** (`toFixed(1)` in the source);
with fewer than 3 points it falls back to ExponentialSmoothing; on the series
[60, 62, 64] with horizon 3 the mean step is 2 and the predictions are
exactly [66, 68, 70]. -/
theorem arima_step_extrapolation (data : List HistPoint) (cur : ℚ) (ts i : ℕ) :
    (3 ≤ data.length → i < ts →
      ((arimaForecast data cur ts).getD i ⟨0, 0⟩).predicted_risk
        = round1 (max 0 (min 100 (cur + avgDifference data * ((i : ℚ) + 1))))) ∧
    (data.length < 3 →
      arimaForecast data cur ts = exponentialSmoothingForecast data cur ts) ∧
    (arimaForecast [⟨0, 60⟩, ⟨30, 62⟩, ⟨60, 64⟩] 64 3).map
        (fun p => p.predicted_risk) = [66, 68, 70] := by
  refine ⟨fun h3 hi => ?_, fun h3 => ?_, ?_⟩
  · rw [arimaForecast_getD data cur hi, if_neg (by omega)]
  · unfold arimaForecast
    rw [if_pos h3]
  · have havg : avgDifference [⟨0, 60⟩, ⟨30, 62⟩, ⟨60, 64⟩] = 2 := by
      norm_num [avgDifference]
    norm_num [arimaForecast, List.range_succ, havg, round1, round_eq]

/-- C7 witness: the extrapolation formula instantiated on the 3-point series
[60, 62, 64] with current value 64, horizon 3, period index 0: the predicted
value is the rounded clamp of 64 + 2·1 = 66. -/
theorem arima_step_extrapolation_witness :
    ((arimaForecast [⟨0, 60⟩, ⟨30, 62⟩, ⟨60, 64⟩] 64 3).getD 0 ⟨0, 0⟩).predicted_risk
      = round1 (max 0 (min 100
          (64 + avgDifference [⟨0, 60⟩, ⟨30, 62⟩, ⟨60, 64⟩] * ((0 : ℚ) + 1)))) :=
  (arima_step_extrapolation [⟨0, 60⟩, ⟨30, 62⟩, ⟨60, 64⟩] 64 3 0).1
    (by norm_num) (by norm_num)

/-- C7 counterexample: on the 3-point series [0.05, 0.05, 0.05] with current
value 0.05 and horizon 1, the claimed formula gives `clamp(0.05 + 0·1) = 0.05`
but the code returns 0.1: `toFixed(1)` rounds the clamped value, so the
prediction is not `current + Δ*i` clamped to [0, 100]. -/
theorem arima_formula_counterexample :
    ((arimaForecast [⟨0, 0.05⟩, ⟨1, 0.05⟩, ⟨2, 0.05⟩] 0.05 1).getD 0 ⟨0, 0⟩).predicted_risk
      = 0.1 ∧
    max 0 (min 100 (0.05 + avgDifference [⟨0, 0.05⟩, ⟨1, 0.05⟩, ⟨2, 0.05⟩] * ((0 : ℚ) + 1)))
      = 0.05 ∧
    (0.1 : ℚ) ≠ 0.05 := by
  have havg : avgDifference [⟨0, 0.05⟩, ⟨1, 0.05⟩, ⟨2, 0.05⟩] = 0 := by
    norm_num [avgDifference]
  refine ⟨?_, by rw [havg]; norm_num, by norm_num⟩
  rw [arimaForecast_getD _ _ (by norm_num : (0 : ℕ) < 1), if_neg (by norm_num), havg]
  norm_num [round1, round_eq]

/-- C10 (amended): `calculateTrendDirection` is total and returns "stable"
for every prediction sequence of fewer than 2 points, and also when the first
and last predicted values are both 0 (the JS ratio is NaN and both threshold
comparisons are false); but when the first value is 0 and the last is
positive the JS ratio is +Infinity and it returns "increasing", not
"stable". -/
theorem trend_direction_edge_cases (preds : List ForecastPoint) :
    (preds.length < 2 → calculateTrendDirection preds = "stable") ∧
    ((preds.head?.getD ⟨0, 0⟩).predicted_risk = 0 →
      (preds.getLast?.getD ⟨0, 0⟩).predicted_risk = 0 →
      calculateTrendDirection preds = "stable") ∧
    (2 ≤ preds.length → (preds.head?.getD ⟨0, 0⟩).predicted_risk = 0 →
      0 < (preds.getLast?.getD ⟨0, 0⟩).predicted_risk →
      calculateTrendDirection preds = "increasing") := by
  refine ⟨fun h => ?_, fun h0 hL => ?_, fun hlen h0 hpos => ?_⟩
  · simp [calculateTrendDirection, h]
  · by_cases hlen : preds.length < 2
    · simp [calculateTrendDirection, hlen]
    · simp [calculateTrendDirection, hlen, h0, hL]
  · have hnl : ¬ preds.length < 2 := by omega
    simp [calculateTrendDirection, hnl, h0, hpos]

/-- C10 witness: a one-point sequence yields "stable", and a sequence whose
first and last blended values are both 0 yields "stable". -/
theorem trend_direction_edge_cases_witness :
    calculateTrendDirection [⟨50, 0.9⟩] = "stable" ∧
    calculateTrendDirection [⟨0, 0.9⟩, ⟨0, 0.8⟩] = "stable" :=
  ⟨(trend_direction_edge_cases [⟨50, 0.9⟩]).1 (by norm_num),
   (trend_direction_edge_cases [⟨0, 0.9⟩, ⟨0, 0.8⟩]).2.1 rfl rfl⟩

/-- C10 counterexample: on the sequence [0, 10] the first blended value is 0,
but `calculateTrendDirection` returns "increasing" (the JS percent change is
(10-0)/0 = +Infinity, which exceeds the 5 threshold), not "stable". -/
theorem trend_zero_first_counterexample :
    calculateTrendDirection [⟨0, 0.9⟩, ⟨10, 0.8⟩] = "increasing" ∧
    ("increasing" : String) ≠ "stable" := by
  constructor
  · norm_num [calculateTrendDirection]
  · decide

/-! ## Ledger lookup lemmas -/

theorem find?_set_self (t : Ledger) (k : String) (v : ℚ) :
    ((t.map (fun p => if p.1 = k then (k, v) else p)).find? (fun p => p.1 = k))
      = if (t.find? (fun p => p.1 = k)).isSome then some (k, v) else none := by
  induction t with
  | nil => simp
  | cons p t ih =>
    by_cases hp : p.1 = k
    · rw [List.map_cons, if_pos hp, List.find?_cons_of_pos _ (by simp),
        List.find?_cons_of_pos _ (by simp [hp])]
      simp
    · rw [List.map_cons, if_neg hp, List.find?_cons_of_neg _ (by simp [hp]),
        List.find?_cons_of_neg _ (by simp [hp]), ih]

theorem find?_set_ne (t : Ledger) (k k2 : String) (v : ℚ) (hne : k2 ≠ k) :
    ((t.map (fun p => if p.1 = k then (k, v) else p)).find? (fun p => p.1 = k2))
      = t.find? (fun p => p.1 = k2) := by
  induction t with
  | nil => simp
  | cons p t ih =>
    by_cases hp : p.1 = k
    · have h1 : ¬ ((k, v).1 = k2) := fun hh => hne hh.symm
      have h2 : ¬ (p.1 = k2) := fun hh => hne (hh.symm.trans hp)
      rw [List.map_cons, if_pos hp, List.find?_cons_of_neg _ (by simp [h1]),
        List.find?_cons_of_neg _ (by simp [h2]), ih]
    · rw [List.map_cons, if_neg hp]
      by_cases hq : p.1 = k2
      · rw [List.find?_cons_of_pos _ (by simp [hq]), List.find?_cons_of_pos _ (by simp [hq])]
      · rw [List.find?_cons_of_neg _ (by simp [hq]),
          List.find?_cons_of_neg _ (by simp [hq]), ih]

theorem histLookup_histSet_self (h : Ledger) (k : String) (v : ℚ) :
    histLookup (histSet h k v) k = some v := by
  unfold histLookup histSet
  split_ifs with hs
  · rw [find?_set_self, if_pos hs]
    rfl
  · rw [List.find?_append, Option.not_isSome_iff_eq_none.mp hs]
    simp [List.find?_cons]

theorem histLookup_histSet_ne (h : Ledger) (k k2 : String) (v : ℚ) (hne : k2 ≠ k) :
    histLookup (histSet h k v) k2 = histLookup h k2 := by
  unfold histLookup histSet
  split_ifs with hs
  · rw [find?_set_ne _ _ _ _ hne]
  · have hkk2 : (decide (k = k2)) = false := decide_eq_false (fun hh => hne hh.symm)
    have hone : List.find? (fun p => p.1 = k2) [(k, v)] = none := by
      simp [List.find?_cons, hkk2]
    rw [List.find?_append, hone]
    simp

/-! ## Scenario step characterisation lemmas -/

theorem scenarioStep_eq (st : SessionState) (inp : ScenarioInput) :
    scenarioStep st inp
      = (⟨if (applyScenario st.history st.twin.state inp).1.no_change then st.twin
            else applyScenarioImpact st.twin (applyScenario st.history st.twin.state inp).1,
          (applyScenario st.history st.twin.state inp).2.1⟩,
         (applyScenario st.history st.twin.state inp).2.2) := rfl

theorem applyScenario_move (hist : Ledger) (cs : String) (inp : ScenarioInput)
    (hs : inp.s ≠ "") (hne : inp.s ≠ cs) (hd0 : inp.d = 0) :
    applyScenario hist cs inp =
      if histTruthy hist inp.s then
        ({ move_state := some inp.s, restore_deductible := histLookup hist inp.s },
         hist, false)
      else
        ({ move_state := some inp.s },
         histSet hist inp.s ((histLookup hist cs).getD 0), false) := by
  simp only [applyScenario]
  rw [if_pos hs, if_neg hne]
  by_cases ht : histTruthy hist inp.s = true
  · rw [if_pos ⟨ht, hd0⟩, if_pos ht]
  · rw [if_neg (fun hand => ht hand.1), if_neg (by rw [hd0]; norm_num),
      if_neg (by simpa using ht)]

theorem applyScenarioImpact_state (t : RiskTwin) (c : ChangeJson) :
    (applyScenarioImpact t c).state
      = if osTruthy c.move_state then c.move_state.getD "" else t.state := by
  simp only [applyScenarioImpact]
  split_ifs <;> rfl

theorem applyScenario_cases (hist : Ledger) (cs : String) (inp : ScenarioInput) :
    (applyScenario hist cs inp).2.2 = false ∨
    applyScenario hist cs inp = ({ no_change := true }, hist, true) := by
  simp only [applyScenario]
  split_ifs <;> first | exact Or.inl rfl | exact Or.inr rfl

/-- C2 (amended): `is_no_op = true` implies the profile and the ledger are
both returned unchanged (exactly, hence within any tolerance); submitting no
change at all yields `is_no_op = true` with everything unchanged; and a move
to the customer's current jurisdiction with no deductible term and an
existing **nonzero** ledger entry yields `is_no_op = true` with an unchanged
profile.  The converse direction of the claimed iff is false (see the
counterexample): a request can leave every field and the ledger unchanged
and still report `is_no_op = false`. -/
theorem noop_flag_sound (st : SessionState) (inp : ScenarioInput) :
    ((scenarioStep st inp).2 = true → (scenarioStep st inp).1 = st) ∧
    (inp.s = "" → ¬ inp.d > 0 →
      (scenarioStep st inp).2 = true ∧ (scenarioStep st inp).1 = st) ∧
    (∀ v : ℚ, inp.s ≠ "" → inp.s = st.twin.state → inp.d = 0 →
      histLookup st.history inp.s = some v → v ≠ 0 →
      (scenarioStep st inp).2 = true ∧ (scenarioStep st inp).1 = st) := by
  refine ⟨fun hfl => ?_, fun hs hd => ?_, fun v hs hcur hd hlv hv => ?_⟩
  · have hfl2 : (applyScenario st.history st.twin.state inp).2.2 = true := hfl
    rcases applyScenario_cases st.history st.twin.state inp with h | h
    · rw [h] at hfl2
      exact Bool.noConfusion hfl2
    · rw [scenarioStep_eq, h]
      rfl
  · rw [scenarioStep_eq]
    simp only [applyScenario]
    rw [if_neg (fun h => h hs), if_neg hd]
    exact ⟨rfl, rfl⟩
  · have htr : histTruthy st.history inp.s = true := by
      simp [histTruthy, oqTruthy, hlv, hv]
    rw [scenarioStep_eq]
    simp only [applyScenario]
    rw [if_pos hs, if_pos hcur, if_pos ⟨htr, hd⟩]
    exact ⟨rfl, rfl⟩

/-- C2 witness: a move to the current jurisdiction FL with no deductible term
and a recorded deductible of 500 for FL reports `is_no_op = true` and leaves
the whole session state unchanged. -/
theorem noop_flag_sound_witness :
    (scenarioStep ⟨⟨78.5, 0.38, 4200, "FL"⟩, [("FL", 500)]⟩ ⟨"FL", 0, .increase⟩).2 = true ∧
    (scenarioStep ⟨⟨78.5, 0.38, 4200, "FL"⟩, [("FL", 500)]⟩ ⟨"FL", 0, .increase⟩).1
      = ⟨⟨78.5, 0.38, 4200, "FL"⟩, [("FL", 500)]⟩ := by
  have h := (noop_flag_sound ⟨⟨78.5, 0.38, 4200, "FL"⟩, [("FL", 500)]⟩ ⟨"FL", 0, .increase⟩).2.2
    500 (by decide) rfl rfl (by norm_num [histLookup, List.find?_cons]) (by norm_num)
  exact ⟨h.1, h.2⟩

/-- C2 counterexample: submitting the customer's own jurisdiction FL with no
deductible amount when the ledger has no FL entry changes neither the profile
nor the ledger, yet `is_no_op` is false — so "is_no_op = true iff nothing
changed" fails right-to-left. -/
theorem noop_iff_counterexample :
    (scenarioStep ⟨⟨78.5, 0.38, 4200, "FL"⟩, []⟩ ⟨"FL", 0, .increase⟩).1
      = ⟨⟨78.5, 0.38, 4200, "FL"⟩, []⟩ ∧
    (scenarioStep ⟨⟨78.5, 0.38, 4200, "FL"⟩, []⟩ ⟨"FL", 0, .increase⟩).2 = false := by
  have hclient : applyScenario [] "FL" ⟨"FL", 0, .increase⟩ = ({}, [], false) := by
    norm_num [applyScenario, histTruthy, histLookup, oqTruthy,
      show ("FL" : String) ≠ "" by decide]
  have himp : applyScenarioImpact ⟨78.5, 0.38, 4200, "FL"⟩ {} = ⟨78.5, 0.38, 4200, "FL"⟩ := by
    norm_num [applyScenarioImpact, osTruthy, oqTruthy]
  rw [scenarioStep_eq]
  constructor
  · simp only [hclient]
    simp [himp]
  · rw [hclient]

/-- C4 (amended): moving A → B and then B → A with no deductible amounts in
either step restores the deductible recorded for A and leaves the ledger
value for A unchanged, **provided the recorded deductible for A is nonzero**
(a recorded 0 is falsy in JS and is treated as a missing entry, see the
counterexample); and when B has no ledger entry the first move gives B a new
entry equal to the deductible held in A. -/
theorem deductible_roundtrip_restore (st : SessionState) (A B : String) (vA : ℚ)
    (act1 act2 : DedAction) (hA : st.twin.state = A) (hAB : A ≠ B)
    (hAe : A ≠ "") (hBe : B ≠ "")
    (hlv : histLookup st.history A = some vA) (hv : vA ≠ 0) :
    histLookup (scenarioStep (scenarioStep st ⟨B, 0, act1⟩).1 ⟨A, 0, act2⟩).1.history A
      = some vA ∧
    (applyScenario (scenarioStep st ⟨B, 0, act1⟩).1.history
        (scenarioStep st ⟨B, 0, act1⟩).1.twin.state ⟨A, 0, act2⟩).1.restore_deductible
      = some vA ∧
    (histLookup st.history B = none →
      histLookup (scenarioStep st ⟨B, 0, act1⟩).1.history B = some vA) := by
  have hBA : B ≠ A := fun h => hAB h.symm
  have h1 := applyScenario_move st.history st.twin.state ⟨B, 0, act1⟩ hBe
    (by rw [hA]; exact hBA) rfl
  have hist1 : (scenarioStep st ⟨B, 0, act1⟩).1.history
      = if histTruthy st.history B then st.history
        else histSet st.history B vA := by
    rw [scenarioStep_eq]
    by_cases ht : histTruthy st.history B = true
    · rw [if_pos ht] at *
      rw [h1]
    · rw [if_neg ht] at *
      rw [h1]
      have : (histLookup st.history st.twin.state).getD 0 = vA := by
        rw [hA, hlv]; rfl
      rw [this]
  have state1 : (scenarioStep st ⟨B, 0, act1⟩).1.twin.state = B := by
    rw [scenarioStep_eq]
    by_cases ht : histTruthy st.history B = true
    · rw [h1, if_pos ht]
      show (applyScenarioImpact st.twin _).state = B
      rw [applyScenarioImpact_state]
      simp [osTruthy, hBe]
    · rw [h1, if_neg ht]
      show (applyScenarioImpact st.twin _).state = B
      rw [applyScenarioImpact_state]
      simp [osTruthy, hBe]
  have hlook1 : histLookup (scenarioStep st ⟨B, 0, act1⟩).1.history A = some vA := by
    rw [hist1]
    split_ifs
    · exact hlv
    · rw [histLookup_histSet_ne _ _ _ _ hAB]
      exact hlv
  have htr1 : histTruthy (scenarioStep st ⟨B, 0, act1⟩).1.history A = true := by
    simp [histTruthy, oqTruthy, hlook1, hv]
  have h2 := applyScenario_move (scenarioStep st ⟨B, 0, act1⟩).1.history
    (scenarioStep st ⟨B, 0, act1⟩).1.twin.state ⟨A, 0, act2⟩ hAe
    (by rw [state1]; exact hAB) rfl
  refine ⟨?_, ?_, fun hBnone => ?_⟩
  · rw [scenarioStep_eq]
    show histLookup (applyScenario (scenarioStep st ⟨B, 0, act1⟩).1.history
      (scenarioStep st ⟨B, 0, act1⟩).1.twin.state ⟨A, 0, act2⟩).2.1 A = some vA
    rw [h2, if_pos htr1]
    exact hlook1
  · rw [h2, if_pos htr1]
    exact hlook1
  · have htB : histTruthy st.history B = false := by
      simp [histTruthy, oqTruthy, hBnone]
    rw [hist1, htB]
    simp only [Bool.false_eq_true, if_false]
    exact histLookup_histSet_self st.history B vA

/-- C4 witness: with the customer in AA holding a recorded 250 deductible,
moving AA → BB and back restores 250 (the second move carries
`restore_deductible = 250`) and the ledger entry for AA still reads 250. -/
theorem deductible_roundtrip_restore_witness :
    histLookup (scenarioStep (scenarioStep ⟨⟨50, 0.3, 1000, "AA"⟩, [("AA", 250)]⟩
        ⟨"BB", 0, .increase⟩).1 ⟨"AA", 0, .increase⟩).1.history "AA" = some 250 ∧
    (applyScenario (scenarioStep ⟨⟨50, 0.3, 1000, "AA"⟩, [("AA", 250)]⟩ ⟨"BB", 0, .increase⟩).1.history
        (scenarioStep ⟨⟨50, 0.3, 1000, "AA"⟩, [("AA", 250)]⟩ ⟨"BB", 0, .increase⟩).1.twin.state
        ⟨"AA", 0, .increase⟩).1.restore_deductible = some 250 ∧
    (histLookup [("AA", 250)] "BB" = none →
      histLookup (scenarioStep ⟨⟨50, 0.3, 1000, "AA"⟩, [("AA", 250)]⟩
        ⟨"BB", 0, .increase⟩).1.history "BB" = some 250) :=
  deductible_roundtrip_restore ⟨⟨50, 0.3, 1000, "AA"⟩, [("AA", 250)]⟩ "AA" "BB" 250
    .increase .increase rfl (by decide) (by decide) (by decide)
    (by norm_num [histLookup, List.find?_cons]) (by norm_num)

/-- C4 counterexample: the recorded deductible for AA is 0 and BB holds 500;
after the round trip AA → BB → AA with no deductible amounts, the ledger
value for AA has become 500 — the round trip does **not** leave the ledger
value for A unchanged, because the 0 entry is falsy and the restore branch is
skipped. -/
theorem deductible_roundtrip_zero_counterexample :
    histLookup [("BB", 500), ("AA", 0)] "AA" = some 0 ∧
    histLookup (scenarioStep (scenarioStep ⟨⟨50, 0.3, 1000, "AA"⟩, [("BB", 500), ("AA", 0)]⟩
        ⟨"BB", 0, .increase⟩).1 ⟨"AA", 0, .increase⟩).1.history "AA" = some 500 ∧
    some (500 : ℚ) ≠ some (0 : ℚ) := by
  have hL0 : histLookup [("BB", 500), ("AA", 0)] "AA" = some (0 : ℚ) := by
    norm_num [histLookup, List.find?_cons, show ¬("BB" = "AA") by decide]
  have hLB : histLookup [("BB", 500), ("AA", 0)] "BB" = some (500 : ℚ) := by
    norm_num [histLookup, List.find?_cons]
  have h1 := applyScenario_move [("BB", 500), ("AA", 0)] "AA" ⟨"BB", 0, .increase⟩
    (by decide) (by decide) rfl
  have htB : histTruthy [("BB", 500), ("AA", 0)] "BB" = true := by
    simp [histTruthy, oqTruthy, hLB]
  have hist1 : (scenarioStep ⟨⟨50, 0.3, 1000, "AA"⟩, [("BB", 500), ("AA", 0)]⟩
      ⟨"BB", 0, .increase⟩).1.history = [("BB", 500), ("AA", 0)] := by
    rw [scenarioStep_eq]
    show (applyScenario [("BB", 500), ("AA", 0)] "AA" ⟨"BB", 0, .increase⟩).2.1 = _
    rw [h1, if_pos htB]
  have state1 : (scenarioStep ⟨⟨50, 0.3, 1000, "AA"⟩, [("BB", 500), ("AA", 0)]⟩
      ⟨"BB", 0, .increase⟩).1.twin.state = "BB" := by
    rw [scenarioStep_eq, h1, if_pos htB]
    simp [applyScenarioImpact_state, osTruthy]
  have h2 := applyScenario_move (scenarioStep ⟨⟨50, 0.3, 1000, "AA"⟩, [("BB", 500), ("AA", 0)]⟩
      ⟨"BB", 0, .increase⟩).1.history
    (scenarioStep ⟨⟨50, 0.3, 1000, "AA"⟩, [("BB", 500), ("AA", 0)]⟩
      ⟨"BB", 0, .increase⟩).1.twin.state ⟨"AA", 0, .increase⟩
    (by decide) (by rw [state1]; decide) rfl
  have htA : histTruthy (scenarioStep ⟨⟨50, 0.3, 1000, "AA"⟩, [("BB", 500), ("AA", 0)]⟩
      ⟨"BB", 0, .increase⟩).1.history "AA" = false := by
    rw [hist1]
    simp [histTruthy, oqTruthy, hL0]
  refine ⟨hL0, ?_, by norm_num⟩
  rw [scenarioStep_eq]
  show histLookup (applyScenario (scenarioStep ⟨⟨50, 0.3, 1000, "AA"⟩, [("BB", 500), ("AA", 0)]⟩
      ⟨"BB", 0, .increase⟩).1.history
    (scenarioStep ⟨⟨50, 0.3, 1000, "AA"⟩, [("BB", 500), ("AA", 0)]⟩
      ⟨"BB", 0, .increase⟩).1.twin.state ⟨"AA", 0, .increase⟩).2.1 "AA" = some 500
  rw [h2, if_neg (by rw [htA]; norm_num)]
  have hcur : ((histLookup (scenarioStep ⟨⟨50, 0.3, 1000, "AA"⟩, [("BB", 500), ("AA", 0)]⟩
      ⟨"BB", 0, .increase⟩).1.history
    (scenarioStep ⟨⟨50, 0.3, 1000, "AA"⟩, [("BB", 500), ("AA", 0)]⟩
      ⟨"BB", 0, .increase⟩).1.twin.state).getD 0) = (500 : ℚ) := by
    rw [hist1, state1, hLB]
    rfl
  rw [hcur, hist1]
  dsimp only
  exact histLookup_histSet_self _ _ _

/-- C9 (amended): an `AdjustDeductible` increase with negative amount is
rejected by the validation middleware (an error code is returned) before any
mutation — the profile is unchanged on rejection.  The symmetric decrease
direction is **not** validated: a negative `decrease_deductible` passes
validation and is applied (see the counterexample). -/
theorem negative_increase_rejected (twin : RiskTwin) (r : ScenarioRequest) (q : ℚ)
    (hq : r.change_json.increase_deductible = some q) (hneg : q < 0) :
    (∃ e, validateScenarioData r = .error e) ∧ (scenarioEndpoint twin r).1 = twin := by
  have hex : ∃ e, validateScenarioData r = .error e := by
    unfold validateScenarioData
    rw [hq]
    dsimp only
    split_ifs with h1 h2 h3 h4 h5 h6
    · exact ⟨_, rfl⟩
    · exact ⟨_, rfl⟩
    · exact ⟨_, rfl⟩
    · exact ⟨_, rfl⟩
    · exact ⟨_, rfl⟩
    · exact ⟨_, rfl⟩
    · exact absurd (Or.inl hneg) h6
  refine ⟨hex, ?_⟩
  obtain ⟨e, he⟩ := hex
  unfold scenarioEndpoint
  rw [he]

/-- C9 witness: the request with `increase_deductible = -500` is rejected and
the profile is left untouched. -/
theorem negative_increase_rejected_witness :
    (∃ e, validateScenarioData ⟨1, "x", { increase_deductible := some (-500) }⟩ = .error e) ∧
    (scenarioEndpoint ⟨78.5, 0.38, 4200, "FL"⟩
        ⟨1, "x", { increase_deductible := some (-500) }⟩).1 = ⟨78.5, 0.38, 4200, "FL"⟩ :=
  negative_increase_rejected ⟨78.5, 0.38, 4200, "FL"⟩ _ (-500) rfl (by norm_num)

/-- C9 counterexample: an `AdjustDeductible` decrease with negative amount
(-500) passes `validateScenarioData` (only `increase_deductible` is range
checked) and the endpoint then mutates the profile: the risk score is
multiplied by 1 - 500·0.0001 = 0.95, so the invalid scenario was not rejected
before mutation. -/
theorem negative_decrease_accepted_counterexample :
    validateScenarioData ⟨1, "x", { decrease_deductible := some (-500) }⟩
      = .ok ⟨1, "x", { decrease_deductible := some (-500) }⟩ ∧
    (scenarioEndpoint ⟨78.5, 0.38, 4200, "FL"⟩
        ⟨1, "x", { decrease_deductible := some (-500) }⟩).1.base_risk_score
      = 78.5 * (1 - 500 * 0.0001) ∧
    (78.5 * (1 - 500 * 0.0001) : ℚ) ≠ 78.5 := by
  have hval : validateScenarioData ⟨1, "x", { decrease_deductible := some (-500) }⟩
      = .ok ⟨1, "x", { decrease_deductible := some (-500) }⟩ := by
    unfold validateScenarioData
    norm_num [osTruthy, show ¬(("x" : String) = "") by decide,
      show ¬(255 < ("x" : String).length) by decide]
  have himp : (applyScenarioImpact ⟨78.5, 0.38, 4200, "FL"⟩
      { decrease_deductible := some (-500) }).base_risk_score
      = 78.5 * (1 - 500 * 0.0001) := by
    norm_num [applyScenarioImpact, osTruthy, oqTruthy, deductibleChange]
  refine ⟨hval, ?_, by norm_num⟩
  unfold scenarioEndpoint
  rw [hval]
  dsimp only
  exact himp

end RiskTwinCore
